import Mathlib

/-!
Shallow embedding of `src/POC.py` (a Streamlit single-page app) and proofs of
the specification claims about it.

The app has three layers, modelled in order:

1. A startup check of the `GCP_API_KEY` environment variable (lines 16-20):
   when absent, `st.error` then `st.stop`.
2. A password gate, `check_password` with its `on_change` callback
   `password_entered` (lines 23-48): a session-scoped flag
   `password_correct`, a text input stored under session key `password`,
   and `st.stop` while the gate is locked.
3. `main` (lines 99-153): when an image is uploaded, call landmark
   detection, render one markdown block per landmark annotation (in order),
   and when at least one landmark was found, select a landmark / language /
   voice, run the narration agent, synthesize speech, and render an audio
   element with `autoplay=True`.

External services (vision, agent, text-to-speech) are parameters of the
embedding: arbitrary functions standing for the network calls.  One render
pass is modelled as a pure function from the inputs to a record of the
observable effects (widgets rendered, service calls made, errors shown).
Machine-level details that no claim depends on (byte payloads, float
formatting in markdown strings) are carried as opaque values: score and
coordinates as rationals, audio content as a list of bytes-as-naturals.
-/

namespace POC

/-- Streamlit session state as used by the app: exactly two keys are ever
touched, `password` (the text input's backing value, line 40) and
`password_correct` (the gate flag, lines 29/32/35/42).  `none` models the
key being absent from `st.session_state`; `del` sets it back to `none`. -/
structure SessionState where
  password : Option String := none
  password_correct : Option Bool := none
deriving DecidableEq, Repr

/-- A fresh session: neither key is present in `st.session_state`. -/
def initialState : SessionState := {}

/-- Embeds `hmac.compare_digest` on strings: constant-time in Python, but
functionally plain string equality (line 28). -/
def compare_digest (a b : String) : Bool := a == b

/-- Embeds the `password_entered` callback (lines 26-32).  It fires as the
text input's `on_change`, so the `password` key is present in session state
when it runs; the `none` branch is unreachable in the app and leaves the
state unchanged.  On a match the flag is set and the `password` key deleted
(line 30); on a mismatch only the flag is set to `False` (line 32). -/
def password_entered (secret : String) (ss : SessionState) : SessionState :=
  match ss.password with
  | some p =>
      if compare_digest p secret then
        { ss with password_correct := some true, password := none }
      else
        { ss with password_correct := some false }
  | none => ss

/-- The observable outcome of one run of `check_password` (lines 23-44):
its return value, whether the password text input was rendered (line 39),
and whether the incorrect-password error was rendered (line 43). -/
structure GateRender where
  result : Bool
  showedInput : Bool
  showedError : Bool
deriving DecidableEq, Repr

/-- Embeds `check_password` (lines 23-44).  Line 35 reads the flag with
`st.session_state.get("password_correct", False)` and returns `True` early;
otherwise the input is shown (line 39) and the error is shown exactly when
the `password_correct` key is present (line 42), which at that point means
it holds `False`. -/
def check_password (ss : SessionState) : GateRender :=
  if ss.password_correct.getD false then
    { result := true, showedInput := false, showedError := false }
  else
    { result := false, showedInput := true,
      showedError := ss.password_correct.isSome }

/-- The gate flag is set: line 35 will return `True`. -/
abbrev Unlocked (ss : SessionState) : Prop := ss.password_correct = some true

/-- One render of the gate portion of the session, as Streamlit drives it:
if the gate is already open no input exists and the entry (what the user
typed this render, if anything) is ignored; otherwise typing into the input
stores the value under the `password` key and fires `password_entered`. -/
def renderStep (secret : String) (ss : SessionState)
    (entry : Option String) : SessionState :=
  if (check_password ss).result then ss
  else
    match entry with
    | none => ss
    | some p => password_entered secret { ss with password := some p }

/-- A session: the sequence of renders driven by a list of user entries. -/
def runSession (secret : String) (ss : SessionState) :
    List (Option String) → SessionState
  | [] => ss
  | e :: es => runSession secret (renderStep secret ss e) es

/-- Number of renders at which the gate moves from locked to unlocked. -/
def unlockCount (secret : String) (ss : SessionState) :
    List (Option String) → Nat
  | [] => 0
  | e :: es =>
      (if ¬ Unlocked ss ∧ Unlocked (renderStep secret ss e) then 1 else 0)
        + unlockCount secret (renderStep secret ss e) es

/-- Number of renders at which a password comparison runs, i.e. the gate is
locked (so the input is shown) and the user submits a value, firing
`password_entered`. -/
def comparisonCount (secret : String) (ss : SessionState) :
    List (Option String) → Nat
  | [] => 0
  | e :: es =>
      (if ¬ Unlocked ss ∧ e.isSome then 1 else 0)
        + comparisonCount secret (renderStep secret ss e) es

/-- The `__LANGUAGES__` list (line 50). -/
def LANGUAGES : List String :=
  ["English", "Finnish", "Swedish", "Vietnamese", "Japanese"]

/-- The `__LANGUAGE_CODES__` dict (lines 51-57), as an association list. -/
def LANGUAGE_CODES : List (String × String) :=
  [("English", "en-US"), ("Finnish", "fi-FI"), ("Swedish", "sv-SE"),
   ("Vietnamese", "vi-VN"), ("Japanese", "ja-JP")]

/-- Dict lookup `__LANGUAGE_CODES__[l]`: `none` models a `KeyError`. -/
def languageCode (l : String) : Option String :=
  (LANGUAGE_CODES.find? (fun p => p.1 == l)).map (fun p => p.2)

/-- A `LatLng` of the vision response (`landmark.locations[i].lat_lng`),
with coordinates as rationals in place of floats. -/
structure LatLng where
  latitude : Rat
  longitude : Rat
deriving DecidableEq, Repr

/-- One element of `response.landmark_annotations`: a description, a score
(rational in place of float) and a list of locations; line 113 reads
`landmark.locations[0]`, which raises when the list is empty. -/
structure Landmark where
  description : String
  score : Rat
  locations : List LatLng
deriving DecidableEq, Repr

/-- The vision service response (line 105): its landmark annotation list,
in the order the upstream service returned it. -/
structure VisionResponse where
  landmark_annotations : List Landmark
deriving DecidableEq, Repr

/-- The `NarrativeFeature` dataclass (lines 65-68). -/
structure NarrativeFeature where
  landmark : String
  language : String
deriving DecidableEq, Repr

/-- The `Narrative` result model (lines 71-72). -/
structure Narrative where
  story : String
deriving DecidableEq, Repr

/-- An `st.audio` element (lines 149-153): its data, its format string and
its autoplay setting. -/
structure AudioElem where
  data : List Nat
  format : String
  autoplay : Bool
deriving DecidableEq, Repr

/-- The user's selectbox choices during one render pass, as indices. -/
structure Choices where
  landmarkIdx : Nat := 0
  languageIdx : Nat := 0
  voiceIdx : Nat := 0
deriving DecidableEq, Repr

/-- An `st.selectbox`: over an empty option list it yields `None`;
otherwise it yields the option the user picked (index 0, the default, when
the user picked nothing), which is always a member of the option list. -/
def selectbox (options : List String) (idx : Nat) : Option String :=
  if options.isEmpty then none
  else some (options.getD (min idx (options.length - 1)) "")

/-- The observable effects of one render pass of the whole script: errors
and widgets rendered, external calls made, and whether the script stopped
early (`st.stop`) or aborted on an uncaught exception (`crashed`). -/
structure RenderEffects where
  errors : List String := []
  stopped : Bool := false
  crashed : Bool := false
  gateShown : Bool := false
  uploaderShown : Bool := false
  imageShown : Bool := false
  markdownLandmarks : List Landmark := []
  landmarkOptions : List String := []
  visionCalls : Nat := 0
  agentCalls : Nat := 0
  listVoicesCalls : Nat := 0
  synthCalls : Nat := 0
  stories : List String := []
  audios : List AudioElem := []
deriving DecidableEq, Repr

/-- The `for landmark in response.landmark_annotations` loop
(lines 109-118): each iteration renders one markdown block determined by
the landmark's description, score and `locations[0]`; an empty `locations`
list raises an `IndexError`, aborting the loop (and the render pass) after
the blocks already rendered.  Returns the landmarks rendered, in order,
paired with whether the loop raised. -/
def markdownLoop : List Landmark → List Landmark × Bool
  | [] => ([], false)
  | lm :: rest =>
      if lm.locations.isEmpty then ([], true)
      else
        let r := markdownLoop rest
        (lm :: r.1, r.2)

/-- Embeds `main` (lines 99-153).  `agentFn` stands for
`agent.run_sync("Tell me about this landmark.", deps=deps).data`,
`voicesFn` for `tts_client.list_voices(language_code=...).voices` (the
voice names), and `synthFn` for
`tts_client.synthesize_speech(text, language_code, voice_name)`'s audio
content.  `upload` is the file uploader's value; its payload is irrelevant
to every claim so only presence is kept.  The `.getD ""` defaults on the
landmark and language selections are unreachable: both option lists are
nonempty where they are read (guard on line 120; `__LANGUAGES__` literal). -/
def main (vision : VisionResponse) (agentFn : NarrativeFeature → Narrative)
    (voicesFn : String → List String)
    (synthFn : String → String → Option String → List Nat)
    (upload : Option Unit) (choices : Choices) : RenderEffects :=
  match upload with
  | none => {}
  | some _ =>
      let rendered := markdownLoop vision.landmark_annotations
      if rendered.2 then
        { visionCalls := 1, imageShown := true,
          markdownLandmarks := rendered.1, crashed := true }
      else if vision.landmark_annotations.length ≥ 1 then
        let opts := vision.landmark_annotations.map (fun lm => lm.description)
        let landmark := (selectbox opts choices.landmarkIdx).getD ""
        let language := (selectbox LANGUAGES choices.languageIdx).getD ""
        let result := agentFn { landmark := landmark, language := language }
        match languageCode language with
        | none =>
            { visionCalls := 1, imageShown := true,
              markdownLandmarks := rendered.1, landmarkOptions := opts,
              agentCalls := 1, crashed := true }
        | some code =>
            let voices := voicesFn code
            let voiceName := selectbox voices choices.voiceIdx
            let audio := synthFn result.story code voiceName
            { visionCalls := 1, imageShown := true,
              markdownLandmarks := rendered.1, landmarkOptions := opts,
              agentCalls := 1, listVoicesCalls := 1,
              stories := [result.story], synthCalls := 1,
              audios := [{ data := audio, format := "audio/wav",
                           autoplay := true }] }
      else
        { visionCalls := 1, imageShown := true,
          markdownLandmarks := rendered.1 }

/-- Embeds one render pass of the whole script (lines 14-157): the API-key
check (lines 16-20) halts with an error when the key is absent; the gate
(lines 47-48) halts while locked; otherwise the file uploader renders
(line 59) and `main(GCP_API_KEY)` runs (line 157). -/
def runApp (apiKey : Option String) (ss : SessionState)
    (vision : VisionResponse) (agentFn : NarrativeFeature → Narrative)
    (voicesFn : String → List String)
    (synthFn : String → String → Option String → List Nat)
    (upload : Option Unit) (choices : Choices) : RenderEffects :=
  match apiKey with
  | none => { errors := ["API_KEY not set"], stopped := true }
  | some _ =>
      let gate := check_password ss
      if gate.result then
        let eff := main vision agentFn voicesFn synthFn upload choices
        { eff with uploaderShown := true, gateShown := gate.showedInput }
      else
        { errors := if gate.showedError then ["Password incorrect"] else [],
          gateShown := gate.showedInput, stopped := true }

/-! Helper lemmas about the gate and the session step relation. -/

theorem gate_result_iff (ss : SessionState) :
    (check_password ss).result = true ↔ Unlocked ss := by
  rcases hpc : ss.password_correct with _ | b
  · simp [check_password, hpc, Unlocked]
  · cases b <;> simp [check_password, hpc, Unlocked]

theorem check_password_unlocked (ss : SessionState) (h : Unlocked ss) :
    check_password ss =
      { result := true, showedInput := false, showedError := false } := by
  simp [check_password, h]

theorem gate_result_locked (ss : SessionState) (h : ¬ Unlocked ss) :
    (check_password ss).result = false := by
  have := gate_result_iff ss
  cases hr : (check_password ss).result
  · rfl
  · exact absurd (this.mp hr) h

theorem renderStep_unlocked (secret : String) (ss : SessionState)
    (e : Option String) (h : Unlocked ss) : renderStep secret ss e = ss := by
  simp [renderStep, (gate_result_iff ss).mpr h]

theorem renderStep_locked_none (secret : String) (ss : SessionState)
    (h : ¬ Unlocked ss) : renderStep secret ss none = ss := by
  simp [renderStep, gate_result_locked ss h]

theorem renderStep_locked_some (secret : String) (ss : SessionState)
    (p : String) (h : ¬ Unlocked ss) :
    renderStep secret ss (some p) =
      password_entered secret { ss with password := some p } := by
  simp [renderStep, gate_result_locked ss h]

theorem renderStep_locked_some_pc (secret : String) (ss : SessionState)
    (p : String) (h : ¬ Unlocked ss) :
    (renderStep secret ss (some p)).password_correct =
      some (compare_digest p secret) := by
  rw [renderStep_locked_some secret ss p h]
  cases hc : compare_digest p secret <;>
    simp [password_entered, hc]

theorem runSession_unlocked (secret : String) (es : List (Option String)) :
    ∀ ss : SessionState, Unlocked ss → runSession secret ss es = ss := by
  induction es with
  | nil => intro ss _; rfl
  | cons e es ih =>
      intro ss h
      rw [runSession, renderStep_unlocked secret ss e h, ih ss h]

theorem unlockCount_unlocked (secret : String) (es : List (Option String)) :
    ∀ ss : SessionState, Unlocked ss → unlockCount secret ss es = 0 := by
  induction es with
  | nil => intro ss _; rfl
  | cons e es ih =>
      intro ss h
      rw [unlockCount, renderStep_unlocked secret ss e h, ih ss h]
      simp [h]

theorem unlock_run (secret : String) :
    ∀ (es : List (Option String)) (ss : SessionState),
    ¬ Unlocked ss → some secret ∈ es →
    unlockCount secret ss es = 1 ∧ Unlocked (runSession secret ss es) := by
  intro es
  induction es with
  | nil => intro ss _ hm; cases hm
  | cons e es ih =>
      intro ss h hm
      by_cases he : e = some secret
      · subst he
        have hs' : Unlocked (renderStep secret ss (some secret)) := by
          rw [Unlocked, renderStep_locked_some_pc secret ss secret h]
          simp [compare_digest]
        refine ⟨?_, ?_⟩
        · rw [unlockCount, unlockCount_unlocked secret es _ hs']
          simp [h, hs']
        · rw [runSession, runSession_unlocked secret es _ hs']
          exact hs'
      · have hm' : some secret ∈ es := by
          rcases List.mem_cons.mp hm with h1 | h1
          · exact absurd h1.symm he
          · exact h1
        have hlock' : ¬ Unlocked (renderStep secret ss e) := by
          cases e with
          | none => rw [renderStep_locked_none secret ss h]; exact h
          | some p =>
              intro hu
              rw [Unlocked, renderStep_locked_some_pc secret ss p h] at hu
              have hps : p = secret := by
                have h2 := Option.some.inj hu
                simpa [compare_digest] using h2
              exact he (by rw [hps])
        obtain ⟨h1, h2⟩ := ih _ hlock' hm'
        refine ⟨?_, h2⟩
        rw [unlockCount, h1]
        simp [hlock']

theorem pe_pc_isSome (secret : String) (ss : SessionState) (p : String) :
    ((password_entered secret
        { ss with password := some p }).password_correct).isSome = true := by
  cases hc : compare_digest p secret <;> simp [password_entered, hc]

theorem run_pc_isSome (secret : String) :
    ∀ (es : List (Option String)) (ss : SessionState),
    ((runSession secret ss es).password_correct).isSome = true ↔
      (ss.password_correct.isSome = true ∨
        1 ≤ comparisonCount secret ss es) := by
  intro es
  induction es with
  | nil => intro ss; simp [runSession, comparisonCount]
  | cons e es ih =>
      intro ss
      rw [runSession, comparisonCount, ih]
      by_cases h : Unlocked ss
      · have hs : ss.password_correct.isSome = true := by rw [h]; rfl
        rw [renderStep_unlocked secret ss e h]
        simp [h, hs]
      · cases e with
        | none =>
            rw [renderStep_locked_none secret ss h]
            simp [h]
        | some p =>
            rw [renderStep_locked_some secret ss p h]
            have hsome := pe_pc_isSome secret ss p
            simp [h, hsome]

theorem gate_error_iff_aux (secret : String) (es : List (Option String))
    (ss : SessionState) (h0 : ss.password_correct = none) :
    (check_password (runSession secret ss es)).showedError = true ↔
      (1 ≤ comparisonCount secret ss es ∧
        (check_password (runSession secret ss es)).result = false) := by
  have hiso := run_pc_isSome secret es ss
  rw [h0] at hiso
  simp at hiso
  rcases hpc : (runSession secret ss es).password_correct with _ | b
  · rw [hpc] at hiso
    simp at hiso
    simp [check_password, hpc, hiso]
  · rw [hpc] at hiso
    simp at hiso
    cases b
    · simp [check_password, hpc, hiso]
    · simp [check_password, hpc]

theorem markdownLoop_ok :
    ∀ ls : List Landmark, (∀ lm ∈ ls, lm.locations ≠ []) →
      markdownLoop ls = (ls, false) := by
  intro ls
  induction ls with
  | nil => intro _; rfl
  | cons lm rest ih =>
      intro h
      have h1 : lm.locations ≠ [] := h lm (List.mem_cons_self lm rest)
      have h2 : ∀ x ∈ rest, x.locations ≠ [] :=
        fun x hx => h x (List.mem_cons_of_mem lm hx)
      have he : lm.locations.isEmpty = false := by
        cases hL : lm.locations with
        | nil => exact absurd hL h1
        | cons a as => rfl
      simp [markdownLoop, he, ih h2]

theorem selected_language_mem (i : Nat) :
    (selectbox LANGUAGES i).getD "" ∈ LANGUAGES := by
  have hsel : selectbox LANGUAGES i =
      some (LANGUAGES.getD (min i 4) "") := by
    simp [selectbox, LANGUAGES]
  rw [hsel, Option.getD_some]
  have h4 : min i 4 ≤ 4 := Nat.min_le_right i 4
  set j := min i 4 with hj
  interval_cases j <;> decide

theorem languageCode_LANGUAGES (l : String) (hl : l ∈ LANGUAGES) :
    (languageCode l).isSome = true := by
  simp only [LANGUAGES, List.mem_cons, List.mem_singleton,
    List.not_mem_nil, or_false] at hl
  rcases hl with rfl | rfl | rfl | rfl | rfl <;> decide

theorem languageCode_selected (i : Nat) :
    (languageCode ((selectbox LANGUAGES i).getD "")).isSome = true :=
  languageCode_LANGUAGES _ (selected_language_mem i)

theorem main_render_fields (anns : List Landmark)
    (hloc : ∀ lm ∈ anns, lm.locations ≠ [])
    (agentFn : NarrativeFeature → Narrative)
    (voicesFn : String → List String)
    (synthFn : String → String → Option String → List Nat)
    (choices : Choices) :
    (main ⟨anns⟩ agentFn voicesFn synthFn (some ()) choices).markdownLandmarks
        = anns ∧
    (main ⟨anns⟩ agentFn voicesFn synthFn (some ()) choices).landmarkOptions
        = anns.map (fun lm => lm.description) ∧
    (main ⟨anns⟩ agentFn voicesFn synthFn (some ()) choices).crashed
        = false := by
  have hml := markdownLoop_ok anns hloc
  by_cases hlen : anns.length ≥ 1
  · rcases hcode :
        languageCode ((selectbox LANGUAGES choices.languageIdx).getD "")
        with _ | code
    · exact absurd hcode (by
        have := languageCode_selected choices.languageIdx
        intro hnone
        rw [hnone] at this
        exact Bool.false_ne_true this)
    · simp [main, hml, hlen, hcode]
  · have hnil : anns = [] := by
      cases anns with
      | nil => rfl
      | cons a as => exact absurd (Nat.succ_le_succ (Nat.zero_le _)) hlen
    subst hnil
    simp [main, markdownLoop]

/-! The claims. -/

/-- Claim C1, counterexample: the claim says that after every run of
`password_entered` the session state no longer holds the entered password
under the `password` key.  With configured secret `"hunter2"` and entered
password `"wrong"`, `password_entered` leaves the entered value in session
state: the `del` on line 30 runs only in the matching branch. -/
theorem c1_counterexample :
    (password_entered "hunter2"
        { password := some "wrong", password_correct := none }).password =
      some "wrong" := by decide

/-- Claim C1, amended: the raw entered password is cleared from session
state by `password_entered` exactly when the comparison succeeds; when the
entered password differs from the secret, the flag is set to `false` and
the entered value remains in session state under the `password` key. -/
theorem c1_cleared_only_on_match (secret p : String) (ss : SessionState)
    (hp : ss.password = some p) :
    (compare_digest p secret = true →
      (password_entered secret ss).password = none) ∧
    (compare_digest p secret = false →
      (password_entered secret ss).password = some p) := by
  constructor <;> intro hc <;> simp [password_entered, hp, hc]

/-- Witness for C1 at a concrete input: the secret itself is entered, the
comparison succeeds, and the key is cleared. -/
theorem c1_witness :
    (({ password := some "s", password_correct := none } :
        SessionState).password = some "s") ∧
    compare_digest "s" "s" = true ∧
    (password_entered "s"
        { password := some "s", password_correct := none }).password =
      none :=
  ⟨rfl, by decide,
    (c1_cleared_only_on_match "s" "s"
        { password := some "s", password_correct := none } rfl).1 (by decide)⟩

/-- Claim C3: in a fresh session whose entry sequence contains the
configured secret, the gate moves from locked to unlocked exactly once,
the final state is unlocked, and `check_password` on it returns `True`
without rendering the password input (or the error). -/
theorem c3_unlocks_exactly_once (secret : String)
    (es : List (Option String)) (hm : some secret ∈ es) :
    unlockCount secret initialState es = 1 ∧
    Unlocked (runSession secret initialState es) ∧
    check_password (runSession secret initialState es) =
      { result := true, showedInput := false, showedError := false } := by
  have h0 : ¬ Unlocked initialState := by decide
  obtain ⟨h1, h2⟩ := unlock_run secret es initialState h0 hm
  exact ⟨h1, h2, check_password_unlocked _ h2⟩

/-- Witness for C3: a wrong entry, then the correct one. -/
theorem c3_witness :
    (some "s" ∈ [some "w", some "s"]) ∧
    (unlockCount "s" initialState [some "w", some "s"] = 1 ∧
      Unlocked (runSession "s" initialState [some "w", some "s"]) ∧
      check_password (runSession "s" initialState [some "w", some "s"]) =
        { result := true, showedInput := false, showedError := false }) :=
  ⟨by decide, c3_unlocks_exactly_once "s" [some "w", some "s"] (by decide)⟩

/-- Claim C10: in a fresh session, after any entry sequence, the
incorrect-password error is rendered if and only if at least one password
comparison has run and the gate is still locked; in particular on the very
first render no error is shown. -/
theorem c10_error_iff_compared (secret : String)
    (es : List (Option String)) :
    ((check_password (runSession secret initialState es)).showedError = true ↔
      (1 ≤ comparisonCount secret initialState es ∧
        (check_password (runSession secret initialState es)).result =
          false)) ∧
    (check_password initialState).showedError = false := by
  exact ⟨gate_error_iff_aux secret es initialState rfl, by decide⟩

/-- Claim C2: with a detection response containing zero landmark
annotations, the render pass makes no narration call and no
speech-synthesis call (and no voice listing), and it terminates normally:
no error rendered, no crash, no stop. -/
theorem c2_zero_landmarks_no_calls (agentFn : NarrativeFeature → Narrative)
    (voicesFn : String → List String)
    (synthFn : String → String → Option String → List Nat)
    (choices : Choices) :
    (main ⟨[]⟩ agentFn voicesFn synthFn (some ()) choices).agentCalls = 0 ∧
    (main ⟨[]⟩ agentFn voicesFn synthFn (some ()) choices).synthCalls = 0 ∧
    (main ⟨[]⟩ agentFn voicesFn synthFn (some ()) choices).listVoicesCalls
        = 0 ∧
    (main ⟨[]⟩ agentFn voicesFn synthFn (some ()) choices).crashed = false ∧
    (main ⟨[]⟩ agentFn voicesFn synthFn (some ()) choices).errors = [] ∧
    (main ⟨[]⟩ agentFn voicesFn synthFn (some ()) choices).stopped = false :=
  ⟨rfl, rfl, rfl, rfl, rfl, rfl⟩

/-- Claim C4: with the API-key environment variable absent, the render
pass shows the error and stops before any interaction: no password gate,
no uploader, and no detection, narration, voice-listing or synthesis
call. -/
theorem c4_missing_key_halts (ss : SessionState) (vision : VisionResponse)
    (agentFn : NarrativeFeature → Narrative)
    (voicesFn : String → List String)
    (synthFn : String → String → Option String → List Nat)
    (upload : Option Unit) (choices : Choices) :
    (runApp none ss vision agentFn voicesFn synthFn upload choices).errors
        = ["API_KEY not set"] ∧
    (runApp none ss vision agentFn voicesFn synthFn upload choices).stopped
        = true ∧
    (runApp none ss vision agentFn voicesFn synthFn upload
        choices).gateShown = false ∧
    (runApp none ss vision agentFn voicesFn synthFn upload
        choices).uploaderShown = false ∧
    (runApp none ss vision agentFn voicesFn synthFn upload
        choices).visionCalls = 0 ∧
    (runApp none ss vision agentFn voicesFn synthFn upload
        choices).agentCalls = 0 ∧
    (runApp none ss vision agentFn voicesFn synthFn upload
        choices).listVoicesCalls = 0 ∧
    (runApp none ss vision agentFn voicesFn synthFn upload
        choices).synthCalls = 0 :=
  ⟨rfl, rfl, rfl, rfl, rfl, rfl, rfl, rfl⟩

/-- Claim C5: while the gate flag is unset or `false`, the render pass
stops at the gate: the uploader is not rendered and no detection,
narration, voice-listing or synthesis call is made, no story and no audio
is rendered. -/
theorem c5_locked_inhibits_downstream (k : String) (ss : SessionState)
    (h : ¬ Unlocked ss) (vision : VisionResponse)
    (agentFn : NarrativeFeature → Narrative)
    (voicesFn : String → List String)
    (synthFn : String → String → Option String → List Nat)
    (upload : Option Unit) (choices : Choices) :
    (runApp (some k) ss vision agentFn voicesFn synthFn upload
        choices).uploaderShown = false ∧
    (runApp (some k) ss vision agentFn voicesFn synthFn upload
        choices).visionCalls = 0 ∧
    (runApp (some k) ss vision agentFn voicesFn synthFn upload
        choices).agentCalls = 0 ∧
    (runApp (some k) ss vision agentFn voicesFn synthFn upload
        choices).listVoicesCalls = 0 ∧
    (runApp (some k) ss vision agentFn voicesFn synthFn upload
        choices).synthCalls = 0 ∧
    (runApp (some k) ss vision agentFn voicesFn synthFn upload
        choices).stories = [] ∧
    (runApp (some k) ss vision agentFn voicesFn synthFn upload
        choices).audios = [] ∧
    (runApp (some k) ss vision agentFn voicesFn synthFn upload
        choices).stopped = true := by
  have hr := gate_result_locked ss h
  simp [runApp, hr]

/-- Witness for C5 at a fresh (locked) session. -/
theorem c5_witness :
    (¬ Unlocked initialState) ∧
    ((runApp (some "k") initialState ⟨[]⟩ (fun _ => ⟨""⟩) (fun _ => [])
        (fun _ _ _ => []) none {}).uploaderShown = false ∧
      (runApp (some "k") initialState ⟨[]⟩ (fun _ => ⟨""⟩) (fun _ => [])
          (fun _ _ _ => []) none {}).visionCalls = 0 ∧
      (runApp (some "k") initialState ⟨[]⟩ (fun _ => ⟨""⟩) (fun _ => [])
          (fun _ _ _ => []) none {}).agentCalls = 0 ∧
      (runApp (some "k") initialState ⟨[]⟩ (fun _ => ⟨""⟩) (fun _ => [])
          (fun _ _ _ => []) none {}).listVoicesCalls = 0 ∧
      (runApp (some "k") initialState ⟨[]⟩ (fun _ => ⟨""⟩) (fun _ => [])
          (fun _ _ _ => []) none {}).synthCalls = 0 ∧
      (runApp (some "k") initialState ⟨[]⟩ (fun _ => ⟨""⟩) (fun _ => [])
          (fun _ _ _ => []) none {}).stories = [] ∧
      (runApp (some "k") initialState ⟨[]⟩ (fun _ => ⟨""⟩) (fun _ => [])
          (fun _ _ _ => []) none {}).audios = [] ∧
      (runApp (some "k") initialState ⟨[]⟩ (fun _ => ⟨""⟩) (fun _ => [])
          (fun _ _ _ => []) none {}).stopped = true) :=
  ⟨by decide,
    c5_locked_inhibits_downstream "k" initialState (by decide) ⟨[]⟩
      (fun _ => ⟨""⟩) (fun _ => []) (fun _ _ _ => []) none {}⟩

/-- Claim C6: a detection response with exactly one landmark annotation
(carrying at least one location, as the vision service returns) leads the
render pass to produce exactly one story string and exactly one audio
element, with autoplay set, and no crash. -/
theorem c6_one_landmark_one_story (lm : Landmark)
    (hloc : lm.locations ≠ []) (agentFn : NarrativeFeature → Narrative)
    (voicesFn : String → List String)
    (synthFn : String → String → Option String → List Nat)
    (choices : Choices) :
    (main ⟨[lm]⟩ agentFn voicesFn synthFn (some ()) choices).stories.length
        = 1 ∧
    (main ⟨[lm]⟩ agentFn voicesFn synthFn (some ()) choices).audios.length
        = 1 ∧
    (main ⟨[lm]⟩ agentFn voicesFn synthFn (some ()) choices).audios.map
        (fun a => a.autoplay) = [true] ∧
    (main ⟨[lm]⟩ agentFn voicesFn synthFn (some ()) choices).crashed
        = false := by
  have hml : markdownLoop [lm] = ([lm], false) :=
    markdownLoop_ok [lm] (by
      intro x hx
      rw [List.mem_singleton] at hx
      rw [hx]
      exact hloc)
  rcases hcode :
      languageCode ((selectbox LANGUAGES choices.languageIdx).getD "")
      with _ | code
  · exact absurd hcode (by
      have := languageCode_selected choices.languageIdx
      intro hnone
      rw [hnone] at this
      exact Bool.false_ne_true this)
  · simp [main, hml, hcode]

/-- Witness for C6: the Eiffel Tower scenario of the spec, with trivial
service stubs. -/
theorem c6_witness :
    ((⟨"Eiffel Tower", 91/100,
        [⟨488584/10000, 22945/10000⟩]⟩ : Landmark).locations ≠ []) ∧
    ((main ⟨[⟨"Eiffel Tower", 91/100, [⟨488584/10000, 22945/10000⟩]⟩]⟩
        (fun d => ⟨d.landmark⟩) (fun _ => ["en-US-Standard-A"])
        (fun _ _ _ => [0]) (some ()) {}).stories.length = 1 ∧
      (main ⟨[⟨"Eiffel Tower", 91/100, [⟨488584/10000, 22945/10000⟩]⟩]⟩
          (fun d => ⟨d.landmark⟩) (fun _ => ["en-US-Standard-A"])
          (fun _ _ _ => [0]) (some ()) {}).audios.length = 1 ∧
      (main ⟨[⟨"Eiffel Tower", 91/100, [⟨488584/10000, 22945/10000⟩]⟩]⟩
          (fun d => ⟨d.landmark⟩) (fun _ => ["en-US-Standard-A"])
          (fun _ _ _ => [0]) (some ()) {}).audios.map
          (fun a => a.autoplay) = [true] ∧
      (main ⟨[⟨"Eiffel Tower", 91/100, [⟨488584/10000, 22945/10000⟩]⟩]⟩
          (fun d => ⟨d.landmark⟩) (fun _ => ["en-US-Standard-A"])
          (fun _ _ _ => [0]) (some ()) {}).crashed = false) :=
  ⟨by simp,
    c6_one_landmark_one_story
      ⟨"Eiffel Tower", 91/100, [⟨488584/10000, 22945/10000⟩]⟩ (by simp)
      (fun d => ⟨d.landmark⟩) (fun _ => ["en-US-Standard-A"])
      (fun _ _ _ => [0]) {}⟩

/-- Claim C7: the landmark candidates are rendered, both as markdown
metadata blocks and as the landmark selectbox's option list, in exactly
the order of the detection response, with no re-sorting (for responses
whose landmarks carry at least one location, as the vision service
returns). -/
theorem c7_order_as_returned (anns : List Landmark)
    (hloc : ∀ lm ∈ anns, lm.locations ≠ [])
    (agentFn : NarrativeFeature → Narrative)
    (voicesFn : String → List String)
    (synthFn : String → String → Option String → List Nat)
    (choices : Choices) :
    (main ⟨anns⟩ agentFn voicesFn synthFn (some ()) choices).markdownLandmarks
        = anns ∧
    (main ⟨anns⟩ agentFn voicesFn synthFn (some ()) choices).landmarkOptions
        = anns.map (fun lm => lm.description) := by
  obtain ⟨h1, h2, _⟩ :=
    main_render_fields anns hloc agentFn voicesFn synthFn choices
  exact ⟨h1, h2⟩

/-- Witness for C7: a two-landmark response in upstream order. -/
theorem c7_witness :
    (∀ lm ∈ ([⟨"Tower", 9/10, [⟨1, 2⟩]⟩,
        ⟨"Statue", 8/10, [⟨3, 4⟩]⟩] : List Landmark), lm.locations ≠ []) ∧
    ((main ⟨[⟨"Tower", 9/10, [⟨1, 2⟩]⟩, ⟨"Statue", 8/10, [⟨3, 4⟩]⟩]⟩
        (fun d => ⟨d.landmark⟩) (fun _ => []) (fun _ _ _ => [])
        (some ()) {}).markdownLandmarks =
          [⟨"Tower", 9/10, [⟨1, 2⟩]⟩, ⟨"Statue", 8/10, [⟨3, 4⟩]⟩] ∧
      (main ⟨[⟨"Tower", 9/10, [⟨1, 2⟩]⟩, ⟨"Statue", 8/10, [⟨3, 4⟩]⟩]⟩
          (fun d => ⟨d.landmark⟩) (fun _ => []) (fun _ _ _ => [])
          (some ()) {}).landmarkOptions =
        ([⟨"Tower", 9/10, [⟨1, 2⟩]⟩, ⟨"Statue", 8/10, [⟨3, 4⟩]⟩] :
            List Landmark).map (fun lm => lm.description)) :=
  ⟨by simp,
    c7_order_as_returned
      [⟨"Tower", 9/10, [⟨1, 2⟩]⟩, ⟨"Statue", 8/10, [⟨3, 4⟩]⟩] (by simp)
      (fun d => ⟨d.landmark⟩) (fun _ => []) (fun _ _ _ => []) {}⟩

/-- Claim C8: every selectable language name has an entry in the static
language-to-language-code table, and whatever index the user picks, the
selected language is one of the selectable names — so the two dict lookups
in the render pass cannot raise for a selectable language. -/
theorem c8_language_table_total :
    (∀ l ∈ LANGUAGES, (languageCode l).isSome = true) ∧
    (∀ i : Nat, (selectbox LANGUAGES i).getD "" ∈ LANGUAGES) :=
  ⟨languageCode_LANGUAGES, selected_language_mem⟩

/-- Witness for C8 at the first selectable language. -/
theorem c8_witness :
    ("English" ∈ LANGUAGES) ∧ (languageCode "English").isSome = true :=
  ⟨by decide, c8_language_table_total.1 "English" (by decide)⟩

/-- Claim C9: with no uploaded image, `main` makes no external call and
renders no landmark, story or audio output. -/
theorem c9_no_upload_no_calls (vision : VisionResponse)
    (agentFn : NarrativeFeature → Narrative)
    (voicesFn : String → List String)
    (synthFn : String → String → Option String → List Nat)
    (choices : Choices) :
    (main vision agentFn voicesFn synthFn none choices).visionCalls = 0 ∧
    (main vision agentFn voicesFn synthFn none choices).agentCalls = 0 ∧
    (main vision agentFn voicesFn synthFn none choices).listVoicesCalls
        = 0 ∧
    (main vision agentFn voicesFn synthFn none choices).synthCalls = 0 ∧
    (main vision agentFn voicesFn synthFn none choices).markdownLandmarks
        = [] ∧
    (main vision agentFn voicesFn synthFn none choices).stories = [] ∧
    (main vision agentFn voicesFn synthFn none choices).audios = [] ∧
    (main vision agentFn voicesFn synthFn none choices).imageShown =
      false :=
  ⟨rfl, rfl, rfl, rfl, rfl, rfl, rfl, rfl⟩

end POC
